import Mathlib

/-!
Shallow embedding of the CaddyBot backend (src/backend/server.py and
src/backend/models.py).

Strings are modelled as Lean `String` / `List Char`; Python's substring
operator `needle in hay` is modelled by `strIn`, and `str.lower()` by
`lowerStr` (ASCII case folding via `Char.toLower`, which agrees with
Python's `str.lower` on ASCII input).  Python `int` is modelled as `Int`.
The process-wide mutable list `shots` is modelled by explicit state
passing: each handler takes the current shot log and returns the new one.
The external LLM agent (`pydantic_ai.Agent.run`) is an opaque environment
parameter of type `String → Except String String`: `Except.ok` is a
normal return whose payload is the agent output text, `Except.error`
carries `str(e)` for the exception `e` the call raised.
-/

/-- One conversation turn (models.py, class Message). -/
structure Message where
  role : String
  message : String
  timestamp : String
deriving DecidableEq

/-- Request body of POST /chat (models.py, class ChatRequest). -/
structure ChatRequest where
  messages : List Message
  current_message : String
deriving DecidableEq

/-- Response body of POST /chat (models.py, class ChatResponse). -/
structure ChatResponse where
  role : String
  message : String
  timestamp : String
deriving DecidableEq

/-- Strike-location scores (models.py, class contact). -/
structure contact where
  toe : Int
  heel : Int
  top : Int
  chunk : Int
deriving DecidableEq

/-- Dispersion scores (models.py, class result). -/
structure result where
  right : Int
  left : Int
  long : Int
  short : Int
deriving DecidableEq

/-- One recorded swing outcome (models.py, class shotResult). -/
structure shotResult where
  id : Int
  intendedDistance : Int
  club : String
  contact : contact
  result : result
deriving DecidableEq

/-- Turf conditions (models.py, class lie); unused by every handler. -/
structure lie where
  cut : Int
  xAxis : Int
  zAxis : Int
deriving DecidableEq

/-- Wind components (models.py, class wind); unused by every handler. -/
structure wind where
  hurt : Int
  help : Int
  left : Int
  right : Int
deriving DecidableEq

/-- Swing intent (models.py, class swing); unused by every handler. -/
structure swing where
  size : String
  grip : String
  feel : String
  intangibles : String
deriving DecidableEq

/-- Pre-shot description (models.py, class shotInput); unused by every handler. -/
structure shotInput where
  id : Int
  distance : Int
  club : String
  lie : lie
  wind : wind
  swing : swing
deriving DecidableEq

/-- Does `needle` occur at the very start of `hay`? -/
def leadsWith : List Char → List Char → Bool
  | [], _ => true
  | _ :: _, [] => false
  | n :: ns, h :: hs => n == h && leadsWith ns hs

/-- Does `needle` occur as a contiguous substring of `hay`?
Models Python's `needle in hay` on strings. -/
def containsSub (needle : List Char) : List Char → Bool
  | [] => leadsWith needle []
  | h :: hs => leadsWith needle (h :: hs) || containsSub needle hs

/-- Python `needle in hay` for `String`. -/
def strIn (needle hay : String) : Bool :=
  containsSub needle.data hay.data

/-- Python `s.lower()`, restricted to ASCII case folding. -/
def lowerStr (s : String) : String :=
  ⟨s.data.map Char.toLower⟩

/-- Canned reply 1 (server.py line 58): the 7-iron recommendation. -/
def clubResponse : String :=
  "Based on the distance and conditions, I\x27d recommend using a 7-iron for this shot."

/-- Canned reply 2 (server.py line 60): the pin-distance question. -/
def distanceResponse : String :=
  "Could you tell me the distance to the pin and any obstacles in your way?"

/-- Canned reply 3 (server.py line 62): the wind advice. -/
def windResponse : String :=
  "Wind is a crucial factor. For a headwind, club up. For a tailwind, club down."

/-- Canned reply 4 (server.py line 64): the greeting. -/
def greetingResponse : String :=
  "Hello! I\x27m your AI golf caddy. How can I help improve your game today?"

/-- Fallback reply (server.py line 66), interpolating the original input. -/
def fallbackResponse (current : String) : String :=
  "I understand you\x27re asking about: \x27" ++ current ++
    "\x27. Let me help you with that shot selection."

/-- The keyword cascade of the /chat handler (server.py lines 53-66):
lower-case the current message, then test the keywords in priority order,
first match winning. -/
def classifyResponse (current : String) : String :=
  let user_message := lowerStr current
  if strIn "club" user_message then
    clubResponse
  else if strIn "distance" user_message || strIn "yards" user_message then
    distanceResponse
  else if strIn "wind" user_message then
    windResponse
  else if strIn "hello" user_message || strIn "hi" user_message then
    greetingResponse
  else
    fallbackResponse current

/-- A wall-clock reading, as Python's datetime.datetime carries it. -/
structure DateTime where
  year : Nat
  month : Nat
  day : Nat
  hour : Nat
  minute : Nat
  second : Nat
  microsecond : Nat
deriving DecidableEq

/-- The field ranges every reading produced by a real clock satisfies. -/
def DateTime.inRange (t : DateTime) : Prop :=
  t.year < 10000 ∧ 1 ≤ t.month ∧ t.month ≤ 12 ∧ 1 ≤ t.day ∧ t.day ≤ 31 ∧
    t.hour ≤ 23 ∧ t.minute ≤ 59 ∧ t.second ≤ 59 ∧ t.microsecond < 1000000

instance (t : DateTime) : Decidable t.inRange := by
  unfold DateTime.inRange
  infer_instance

/-- Total order on clock readings: later reading, larger value. -/
def timeVal (t : DateTime) : Nat :=
  (((((t.year * 13 + t.month) * 32 + t.day) * 24 + t.hour) * 60 +
      t.minute) * 60 + t.second) * 1000000 + t.microsecond

/-- The decimal digit character of `n % 10`. -/
def digitChar (n : Nat) : Char :=
  match n % 10 with
  | 0 => '0'
  | 1 => '1'
  | 2 => '2'
  | 3 => '3'
  | 4 => '4'
  | 5 => '5'
  | 6 => '6'
  | 7 => '7'
  | 8 => '8'
  | _ => '9'

/-- Numeric value of a decimal digit character. -/
def digitVal (c : Char) : Nat :=
  c.toNat - 48

/-- Is `c` a decimal digit character? -/
def isDigitC (c : Char) : Bool :=
  48 ≤ c.toNat && c.toNat ≤ 57

/-- `n` zero-padded to two decimal digits (Python %02d for n < 100). -/
def pad2 (n : Nat) : List Char :=
  [digitChar (n / 10), digitChar n]

/-- `n` zero-padded to four decimal digits (Python %04d for n < 10000). -/
def pad4 (n : Nat) : List Char :=
  [digitChar (n / 1000), digitChar (n / 100), digitChar (n / 10), digitChar n]

/-- `n` zero-padded to six decimal digits (Python %06d for n < 1000000). -/
def pad6 (n : Nat) : List Char :=
  [digitChar (n / 100000), digitChar (n / 10000), digitChar (n / 1000),
    digitChar (n / 100), digitChar (n / 10), digitChar n]

/-- Modelled from the spec: `datetime.datetime.now().isoformat()` (Python
standard library, not part of src/) serializes the current clock reading as
an ISO-8601 timestamp `YYYY-MM-DDTHH:MM:SS.ffffff`. -/
def isoformat (t : DateTime) : String :=
  ⟨pad4 t.year ++ '-' :: (pad2 t.month ++ '-' :: (pad2 t.day ++
    'T' :: (pad2 t.hour ++ ':' :: (pad2 t.minute ++ ':' :: (pad2 t.second ++
    '.' :: pad6 t.microsecond)))))⟩

/-- Numeric value of a decimal digit string, most significant digit first. -/
def readNat (cs : List Char) : Nat :=
  cs.foldl (fun a c => a * 10 + digitVal c) 0

/-- Does `s` have the shape `YYYY-MM-DDTHH:MM:SS.ffffff` of an ISO-8601
timestamp, with every field digit-only and in range? -/
def validISO (s : String) : Bool :=
  match s.data with
  | [y1, y2, y3, y4, '-', o1, o2, '-', d1, d2, 'T', h1, h2, ':', i1, i2, ':',
      e1, e2, '.', u1, u2, u3, u4, u5, u6] =>
    [y1, y2, y3, y4, o1, o2, d1, d2, h1, h2, i1, i2, e1, e2,
        u1, u2, u3, u4, u5, u6].all isDigitC &&
      1 ≤ readNat [o1, o2] && readNat [o1, o2] ≤ 12 &&
      1 ≤ readNat [d1, d2] && readNat [d1, d2] ≤ 31 &&
      readNat [h1, h2] ≤ 23 && readNat [i1, i2] ≤ 59 && readNat [e1, e2] ≤ 59
  | _ => false

/-- The clock reading an ISO-8601 timestamp of the shape above denotes,
measured on the `timeVal` scale (0 for any other string). -/
def isoVal (s : String) : Nat :=
  match s.data with
  | [y1, y2, y3, y4, '-', o1, o2, '-', d1, d2, 'T', h1, h2, ':', i1, i2, ':',
      e1, e2, '.', u1, u2, u3, u4, u5, u6] =>
    (((((readNat [y1, y2, y3, y4] * 13 + readNat [o1, o2]) * 32 +
        readNat [d1, d2]) * 24 + readNat [h1, h2]) * 60 +
        readNat [i1, i2]) * 60 + readNat [e1, e2]) * 1000000 +
      readNat [u1, u2, u3, u4, u5, u6]
  | _ => 0

/-- Handler of GET / (server.py lines 36-38). -/
def rootHandler : String :=
  "CaddyBot API is running"

/-- Handler of POST /chat (server.py lines 40-73): classify the current
message and wrap the reply with role "assistant" and the clock reading at
response construction, serialized by `isoformat`. -/
def chatHandler (now : DateTime) (request : ChatRequest) : ChatResponse :=
  { role := "assistant"
    message := classifyResponse request.current_message
    timestamp := isoformat now }

/-- Handler of POST /save (server.py lines 75-78): append the submitted
shot to the process-wide list `shots` and return the full list.  The first
component is the new process state, the second the response body. -/
def saveHandler (shots : List shotResult) (request : shotResult) :
    List shotResult × List shotResult :=
  let shots2 := shots ++ [request]
  (shots2, shots2)

/-- Handler of POST /smart (server.py lines 80-90): forward the string to
the agent; on a normal return hand back `response.output` verbatim, on any
exception `e` catch it and return the folded error text.  The handler
itself never ends in the exception channel: its try/except catches
everything, so the result is always `Except.ok`. -/
def smartHandler (agentRun : String → Except String String) (string : String) :
    Except String String :=
  match agentRun string with
  | Except.ok response => Except.ok response
  | Except.error e => Except.ok ("Error processing request: " ++ e)

/-- The HTTP status the hosting framework assigns a handler outcome:
200 for a normal return, 500 for an uncaught exception. -/
def httpStatus : Except String String → Nat
  | Except.ok _ => 200
  | Except.error _ => 500

/-- The body text a handler outcome carries. -/
def exceptBody : Except String String → String
  | Except.ok s => s
  | Except.error e => e

/-- One incoming request to the HTTP surface, with the environment data
(clock reading, agent behavior) the handler consumes. -/
inductive Request where
  | root : Request
  | chat (now : DateTime) (request : ChatRequest) : Request
  | save (request : shotResult) : Request
  | smart (agentRun : String → Except String String) (string : String) : Request

/-- One response body of the HTTP surface. -/
inductive Response where
  | root (message : String) : Response
  | chat (r : ChatResponse) : Response
  | save (l : List shotResult) : Response
  | smart (s : String) : Response

/-- The four routes of the HTTP surface. -/
inductive Route where
  | root : Route
  | chat : Route
  | save : Route
  | smart : Route
deriving DecidableEq

/-- The route a request is dispatched to. -/
def requestRoute : Request → Route
  | Request.root => Route.root
  | Request.chat _ _ => Route.chat
  | Request.save _ => Route.save
  | Request.smart _ _ => Route.smart

/-- The whole server step: dispatch a request against the current shot
log, producing the new shot log and the response body. -/
def handle (shots : List shotResult) : Request → List shotResult × Response
  | Request.root => (shots, Response.root rootHandler)
  | Request.chat now request => (shots, Response.chat (chatHandler now request))
  | Request.save request =>
    let p := saveHandler shots request
    (p.1, Response.save p.2)
  | Request.smart agentRun string =>
    (shots, Response.smart (exceptBody (smartHandler agentRun string)))

/-- The canonical HTTP surface: the four routes server.py registers
(GET /, POST /chat, POST /save, POST /smart). -/
def canonicalRoutes : List Route :=
  [Route.root, Route.chat, Route.save, Route.smart]

/-- Modelled from the spec: the minimal superseded version of the HTTP
surface, the variant without the /save and /smart routes; it is not
present under src/, which holds only the superset version. -/
def minimalRoutes : List Route :=
  [Route.root, Route.chat]

theorem digitVal_digitChar (n : Nat) : digitVal (digitChar n) = n % 10 := by
  have h10 : n % 10 = 0 ∨ n % 10 = 1 ∨ n % 10 = 2 ∨ n % 10 = 3 ∨ n % 10 = 4 ∨
      n % 10 = 5 ∨ n % 10 = 6 ∨ n % 10 = 7 ∨ n % 10 = 8 ∨ n % 10 = 9 := by
    omega
  unfold digitChar
  rcases h10 with h | h | h | h | h | h | h | h | h | h <;> rw [h] <;> rfl

theorem isDigitC_digitChar (n : Nat) : isDigitC (digitChar n) = true := by
  have h10 : n % 10 = 0 ∨ n % 10 = 1 ∨ n % 10 = 2 ∨ n % 10 = 3 ∨ n % 10 = 4 ∨
      n % 10 = 5 ∨ n % 10 = 6 ∨ n % 10 = 7 ∨ n % 10 = 8 ∨ n % 10 = 9 := by
    omega
  unfold digitChar
  rcases h10 with h | h | h | h | h | h | h | h | h | h <;> rw [h] <;> rfl

theorem readNat_pad2 (n : Nat) (h : n < 100) : readNat (pad2 n) = n := by
  simp only [readNat, pad2, List.foldl, digitVal_digitChar]
  omega

theorem readNat_pad4 (n : Nat) (h : n < 10000) : readNat (pad4 n) = n := by
  simp only [readNat, pad4, List.foldl, digitVal_digitChar]
  omega

theorem readNat_pad6 (n : Nat) (h : n < 1000000) : readNat (pad6 n) = n := by
  simp only [readNat, pad6, List.foldl, digitVal_digitChar]
  omega

theorem validISO_isoformat (t : DateTime) (h : t.inRange) :
    validISO (isoformat t) = true := by
  obtain ⟨h1, h2, h3, h4, h5, h6, h7, h8, h9⟩ := h
  simp only [validISO, isoformat, pad4, pad2, pad6, List.cons_append,
    List.nil_append, List.all_cons, List.all_nil, isDigitC_digitChar,
    Bool.and_true, Bool.true_and, Bool.and_eq_true, decide_eq_true_eq,
    readNat, List.foldl, digitVal_digitChar]
  omega

theorem isoVal_isoformat (t : DateTime) (h : t.inRange) :
    isoVal (isoformat t) = timeVal t := by
  obtain ⟨h1, h2, h3, h4, h5, h6, h7, h8, h9⟩ := h
  simp only [isoVal, isoformat, pad4, pad2, pad6, List.cons_append,
    List.nil_append, readNat, List.foldl, digitVal_digitChar, timeVal]
  omega

/-- Claim C1: the /chat reply is chosen by lower-casing the input and
testing, in this fixed priority order with first match winning: "club"
gives the 7-iron recommendation; else "distance" or "yards" gives the
pin-distance question; else "wind" gives the wind advice; else "hello" or
"hi" gives the greeting; else the fallback echoing the original input.
In particular any input containing "club" in any case yields the 7-iron
recommendation regardless of other keywords present. -/
theorem c1_classifier_priority_order (s : String) :
    (strIn "club" (lowerStr s) = true → classifyResponse s = clubResponse) ∧
    (strIn "club" (lowerStr s) = false →
      (strIn "distance" (lowerStr s) || strIn "yards" (lowerStr s)) = true →
      classifyResponse s = distanceResponse) ∧
    (strIn "club" (lowerStr s) = false →
      (strIn "distance" (lowerStr s) || strIn "yards" (lowerStr s)) = false →
      strIn "wind" (lowerStr s) = true → classifyResponse s = windResponse) ∧
    (strIn "club" (lowerStr s) = false →
      (strIn "distance" (lowerStr s) || strIn "yards" (lowerStr s)) = false →
      strIn "wind" (lowerStr s) = false →
      (strIn "hello" (lowerStr s) || strIn "hi" (lowerStr s)) = true →
      classifyResponse s = greetingResponse) ∧
    (strIn "club" (lowerStr s) = false →
      (strIn "distance" (lowerStr s) || strIn "yards" (lowerStr s)) = false →
      strIn "wind" (lowerStr s) = false →
      (strIn "hello" (lowerStr s) || strIn "hi" (lowerStr s)) = false →
      classifyResponse s = fallbackResponse s) := by
  unfold classifyResponse
  refine ⟨?_, ?_, ?_, ?_, ?_⟩ <;> intros <;> simp_all

/-- Witness for C1: the input "What CLUB and what wind?" contains "club"
upper-cased together with the lower-priority keyword "wind", and the reply
is the 7-iron recommendation. -/
theorem c1_witness : classifyResponse "What CLUB and what wind?" = clubResponse :=
  (c1_classifier_priority_order "What CLUB and what wind?").1 (by decide)

/-- Claim C2: the /save handler appends the submitted shot to the end of
the process-wide shot log and returns the full sequence including the new
entry; saving shot 1 then shot 2 returns the two-element sequence in that
order, and saving duplicate ids does not raise (the handler is total) and
both duplicates appear in the returned sequence. -/
theorem c2_save_appends_and_returns :
    (∀ (shots : List shotResult) (r : shotResult),
      saveHandler shots r = (shots ++ [r], shots ++ [r])) ∧
    (∀ r1 r2 : shotResult, (saveHandler (saveHandler [] r1).1 r2).2 = [r1, r2]) ∧
    (∀ r : shotResult, (saveHandler (saveHandler [] r).1 r).2 = [r, r]) :=
  ⟨fun _ _ => rfl, fun _ _ => rfl, fun _ => rfl⟩

/-- Claim C3: the shot log is strictly append-ordered: every operation of
the server extends the log on the right, leaving the previous contents as
a prefix in the same order, and a /save request appends its shot
unconditionally — no identifier uniqueness is enforced. -/
theorem c3_log_append_only (shots : List shotResult) (req : Request) :
    (∃ t, (handle shots req).1 = shots ++ t) ∧
    (∀ r : shotResult, (handle shots (Request.save r)).1 = shots ++ [r]) := by
  constructor
  · cases req with
    | root => exact ⟨[], by simp [handle]⟩
    | chat now request => exact ⟨[], by simp [handle]⟩
    | save r => exact ⟨[r], rfl⟩
    | smart agentRun string => exact ⟨[], by simp [handle]⟩
  · intro r
    rfl

/-- Claim C4: when the external agent call succeeds, /smart returns the
agent output verbatim; when it fails with any exception, the handler
catches it and returns "Error processing request: <description>" with a
normal, non-error HTTP status — the failure is never propagated as an
HTTP error. -/
theorem c4_smart_error_folding (agentRun : String → Except String String)
    (s out e : String) :
    (agentRun s = Except.ok out →
      smartHandler agentRun s = Except.ok out ∧
      httpStatus (smartHandler agentRun s) = 200) ∧
    (agentRun s = Except.error e →
      smartHandler agentRun s = Except.ok ("Error processing request: " ++ e) ∧
      httpStatus (smartHandler agentRun s) = 200) := by
  constructor <;> intro h <;> simp [smartHandler, h, httpStatus]

/-- Witness for C4: a succeeding agent's text comes back verbatim with
status 200, and a failing agent's description comes back folded into the
error string, also with status 200. -/
theorem c4_witness :
    (smartHandler (fun _ => Except.ok "Aim left.") "advice?" =
        Except.ok "Aim left." ∧
      httpStatus (smartHandler (fun _ => Except.ok "Aim left.") "advice?") = 200) ∧
    (smartHandler (fun _ => Except.error "quota exceeded") "advice?" =
        Except.ok ("Error processing request: " ++ "quota exceeded") ∧
      httpStatus (smartHandler (fun _ => Except.error "quota exceeded") "advice?") = 200) :=
  ⟨(c4_smart_error_folding (fun _ => Except.ok "Aim left.") "advice?"
      "Aim left." "unused").1 rfl,
   (c4_smart_error_folding (fun _ => Except.error "quota exceeded") "advice?"
      "unused" "quota exceeded").2 rfl⟩

/-- Claim C5: every /chat response has role "assistant", and its timestamp
is the serialization of the clock reading taken at response construction:
a valid ISO-8601 timestamp denoting a time no earlier than request
receipt, whenever the clock reading is in range and did not run backwards
between receipt and construction. -/
theorem c5_chat_role_timestamp (now receipt : DateTime) (request : ChatRequest)
    (hn : now.inRange) (hr : timeVal receipt ≤ timeVal now) :
    (chatHandler now request).role = "assistant" ∧
    (chatHandler now request).timestamp = isoformat now ∧
    validISO (chatHandler now request).timestamp = true ∧
    timeVal receipt ≤ isoVal (chatHandler now request).timestamp := by
  refine ⟨rfl, rfl, validISO_isoformat now hn, ?_⟩
  have ht : (chatHandler now request).timestamp = isoformat now := rfl
  rw [ht, isoVal_isoformat now hn]
  exact hr

/-- Witness for C5: a concrete in-range construction-time reading a
quarter second after a concrete receipt-time reading. -/
theorem c5_witness :
    (chatHandler ⟨2026, 10, 12, 9, 30, 0, 250000⟩ ⟨[], "hello"⟩).role = "assistant" ∧
    (chatHandler ⟨2026, 10, 12, 9, 30, 0, 250000⟩ ⟨[], "hello"⟩).timestamp =
      isoformat ⟨2026, 10, 12, 9, 30, 0, 250000⟩ ∧
    validISO (chatHandler ⟨2026, 10, 12, 9, 30, 0, 250000⟩ ⟨[], "hello"⟩).timestamp = true ∧
    timeVal ⟨2026, 10, 12, 9, 29, 59, 750000⟩ ≤
      isoVal (chatHandler ⟨2026, 10, 12, 9, 30, 0, 250000⟩ ⟨[], "hello"⟩).timestamp :=
  c5_chat_role_timestamp ⟨2026, 10, 12, 9, 30, 0, 250000⟩
    ⟨2026, 10, 12, 9, 29, 59, 750000⟩ ⟨[], "hello"⟩ (by decide) (by decide)

/-- Claim C6: for the empty current message, the classifier falls through
every keyword case and the /chat response message is exactly the fallback
template around two adjacent apostrophes. -/
theorem c6_empty_message_fallback (now : DateTime) (hist : List Message) :
    (chatHandler now ⟨hist, ""⟩).message =
      "I understand you\x27re asking about: \x27\x27. Let me help you with that shot selection." :=
  rfl

/-- Claim C7: the chat classifier is deterministic and reads only the
current message: two requests with the same current message, even with
different histories, get identical responses, and handling a chat request
leaves the shot log unchanged. -/
theorem c7_history_noninterference (now : DateTime) (r1 r2 : ChatRequest)
    (h : r1.current_message = r2.current_message) :
    chatHandler now r1 = chatHandler now r2 ∧
    (∀ (shots : List shotResult), (handle shots (Request.chat now r1)).1 = shots) := by
  constructor
  · unfold chatHandler
    rw [h]
  · intro shots
    rfl

/-- Witness for C7: two chat requests sharing the current message but
with different histories get the same response, and the log is unchanged. -/
theorem c7_witness :
    chatHandler ⟨2026, 1, 1, 0, 0, 0, 0⟩ ⟨[], "any wind today?"⟩ =
      chatHandler ⟨2026, 1, 1, 0, 0, 0, 0⟩
        ⟨[⟨"user", "old turn", "2025-12-31T23:59:59.000000"⟩], "any wind today?"⟩ ∧
    (handle [] (Request.chat ⟨2026, 1, 1, 0, 0, 0, 0⟩ ⟨[], "any wind today?"⟩)).1 = [] :=
  ⟨(c7_history_noninterference ⟨2026, 1, 1, 0, 0, 0, 0⟩ ⟨[], "any wind today?"⟩
      ⟨[⟨"user", "old turn", "2025-12-31T23:59:59.000000"⟩], "any wind today?"⟩ rfl).1,
   (c7_history_noninterference ⟨2026, 1, 1, 0, 0, 0, 0⟩ ⟨[], "any wind today?"⟩
      ⟨[], "any wind today?"⟩ rfl).2 []⟩

/-- Claim C8: of the two divergent versions of the HTTP surface, the
minimal one (without /save and /smart, modelled from the spec) is a strict
subset of the canonical four-route superset the server implements: every
minimal route is canonical, /save and /smart are canonical but not
minimal, and every request the server handles lands on a canonical route. -/
theorem c8_superset_surface_canonical :
    (∀ r, r ∈ minimalRoutes → r ∈ canonicalRoutes) ∧
    minimalRoutes ≠ canonicalRoutes ∧
    Route.save ∈ canonicalRoutes ∧ Route.smart ∈ canonicalRoutes ∧
    Route.save ∉ minimalRoutes ∧ Route.smart ∉ minimalRoutes ∧
    (∀ req, requestRoute req ∈ canonicalRoutes) := by
  refine ⟨by decide, by decide, by decide, by decide, by decide, by decide, ?_⟩
  intro req
  cases req <;> simp [requestRoute, canonicalRoutes]

/-- Witness for C8: the /chat route of the minimal surface is also
canonical. -/
theorem c8_witness : Route.chat ∈ minimalRoutes ∧ Route.chat ∈ canonicalRoutes :=
  ⟨by decide, c8_superset_surface_canonical.1 Route.chat (by decide)⟩

/-- Claim C9: the handlers for GET /, POST /chat and POST /smart leave the
shot log unchanged — only POST /save modifies it. -/
theorem c9_frame_only_save_mutates (shots : List shotResult) (req : Request)
    (h : requestRoute req ≠ Route.save) :
    (handle shots req).1 = shots := by
  cases req with
  | root => rfl
  | chat now request => rfl
  | save r => exact absurd rfl h
  | smart agentRun string => rfl

/-- Witness for C9: a GET / request leaves the empty log empty. -/
theorem c9_witness : (handle [] Request.root).1 = [] :=
  c9_frame_only_save_mutates [] Request.root (by decide)

/-- Claim C10: because the greeting case is a plain substring test for
"hi" on the lower-cased input, any message containing "hi" inside another
word and none of the higher-priority keywords gets the fixed greeting
rather than the fallback echo. -/
theorem c10_hi_inside_words (s : String)
    (hhi : strIn "hi" (lowerStr s) = true)
    (hclub : strIn "club" (lowerStr s) = false)
    (hdist : strIn "distance" (lowerStr s) = false)
    (hyards : strIn "yards" (lowerStr s) = false)
    (hwind : strIn "wind" (lowerStr s) = false) :
    classifyResponse s = greetingResponse := by
  unfold classifyResponse
  simp [hhi, hclub, hdist, hyards, hwind]

/-- Witness for C10: the word "this" contains "hi" and none of the other
keywords, so it receives the greeting. -/
theorem c10_witness : classifyResponse "this" = greetingResponse :=
  c10_hi_inside_words "this" (by decide) (by decide) (by decide) (by decide)
    (by decide)
